import Mathlib

/-!
Shallow embedding of the probo-mcp-server translation layer
(`src/proboClient.js` and `src/server.js`).

JavaScript values flowing through the payload builders and the error
normalizer are modelled by the inductive `Json` below; JS truthiness,
field access, template-literal coercion and `JSON.stringify` are given
executable counterparts used exactly where the source uses them.
-/

namespace Probo

/-- A JSON value as handled by the client code (numbers restricted to
integers; the source never produces fractional values). -/
inductive Json where
  | null
  | bool (b : Bool)
  | num (n : Int)
  | str (s : String)
  | arr (elems : List Json)
  | obj (fields : List (String × Json))

/-- JS truthiness of a value (`if (x)`).  `NaN` does not occur in the
modelled code paths. -/
def Json.truthy : Json → Bool
  | .null => false
  | .bool b => b
  | .num n => n != 0
  | .str s => s != ""
  | .arr _ => true
  | .obj _ => true

/-- Property access `x.name` on a JSON value: `none` models `undefined`
(non-objects and absent keys). -/
def Json.getField : Json → String → Option Json
  | .obj fields, name => lookupField fields name
  | _, _ => none
where lookupField : List (String × Json) → String → Option Json
  | [], _ => none
  | (k, v) :: rest, name => if k == name then some v else lookupField rest name

-- Coercion of a value in a JS template literal: arrays join their
-- elements with commas, null elements joining as the empty string;
-- plain objects print as "[object Object]".
mutual
def Json.jsDisplay : Json → String
  | .null => "null"
  | .bool b => if b then "true" else "false"
  | .num n => toString n
  | .str s => s
  | .arr l => jsArrJoin l
  | .obj _ => "[object Object]"

def jsArrJoin : List Json → String
  | [] => ""
  | [Json.null] => ""
  | [x] => x.jsDisplay
  | Json.null :: xs => "," ++ jsArrJoin xs
  | x :: xs => x.jsDisplay ++ "," ++ jsArrJoin xs
end

/-- Escaping applied by `JSON.stringify` to string contents (the control
characters that occur in the modelled data). -/
def escapeJsonChar (c : Char) : String :=
  if c = '"' then "\\\""
  else if c = '\\' then "\\\\"
  else if c = '\n' then "\\n"
  else if c = '\t' then "\\t"
  else if c = '\r' then "\\r"
  else String.singleton c

def escapeJsonString (s : String) : String :=
  String.join (s.toList.map escapeJsonChar)

-- JSON.stringify (compact form; the source passes (null, 2) for pretty
-- printing, which only affects whitespace in logs, not the claims).
mutual
def Json.stringify : Json → String
  | .null => "null"
  | .bool b => if b then "true" else "false"
  | .num n => toString n
  | .str s => "\"" ++ escapeJsonString s ++ "\""
  | .arr l => "[" ++ stringifyElems l ++ "]"
  | .obj fs => "\x7b" ++ stringifyFields fs ++ "\x7d"

def stringifyElems : List Json → String
  | [] => ""
  | [x] => x.stringify
  | x :: xs => x.stringify ++ "," ++ stringifyElems xs

def stringifyFields : List (String × Json) → String
  | [] => ""
  | [(k, v)] => "\"" ++ escapeJsonString k ++ "\":" ++ v.stringify
  | (k, v) :: xs => "\"" ++ escapeJsonString k ++ "\":" ++ v.stringify ++ "," ++ stringifyFields xs
end

/-- JS `[...new Set(l)]` on a list of strings: de-duplication keeping the
first occurrence of each element, preserving order. -/
def dedupFirst (l : List String) : List String :=
  l.foldl (fun acc x => if acc.contains x then acc else acc ++ [x]) []

/-- Splitting a character list at every occurrence of `sep`
(`"".split(sep)` is `[""]`, as in JS). -/
def splitChars (sep : Char) : List Char → List (List Char)
  | [] => [[]]
  | c :: rest =>
    if c = sep then [] :: splitChars sep rest
    else
      match splitChars sep rest with
      | [] => [[c]]
      | h :: t => (c :: h) :: t

/-- Model of `s.split('\n')`: split a string on the newline separator. -/
def jsSplitNewline (s : String) : List String :=
  (splitChars '\n' s.toList).map (fun cs => String.mk cs)

/-- JS `x || y` where `x` is a possibly-absent string and the result must be
a string (`undefined` and `""` are falsy). -/
def strOrElse (x : Option String) (y : String) : String :=
  match x with
  | some s => if s == "" then y else s
  | none => y

/-- JS `x || y` where both operands are possibly-absent strings. -/
def strOrOpt (x y : Option String) : Option String :=
  match x with
  | some s => if s == "" then y else some s
  | none => y

/-- JS `x?.length || 0` as used for the success-message counts: arrays and
strings have a `length`, everything else yields `undefined` and falls
back to `0`. -/
def jsLengthOrZero (v : Option Json) : Nat :=
  match v with
  | some (.arr l) => l.length
  | some (.str s) => s.length
  | _ => 0

/-- Template coercion of a possibly-`undefined` value (`${x}` renders
`undefined` as the literal string `undefined`). -/
def jsTemplate (v : Option Json) : String :=
  match v with
  | none => "undefined"
  | some j => j.jsDisplay

/-- JS `x || fallbackText` rendered into a template literal: the display of
`x` when truthy, otherwise the fallback text. -/
def jsOrDisplay (v : Option Json) (fallback : String) : String :=
  match v with
  | some j => if j.truthy then j.jsDisplay else fallback
  | none => fallback

/-!
### Error normalizer (`handleApiError`, proboClient.js lines 380-438)
-/

/-- The three shapes of an axios failure, matched by `handleApiError`
in order: `error.response` (server answered with an error status),
`error.request` (request sent, no response), setup failure otherwise. -/
inductive AxiosError where
  | response (status : Nat) (data : Json)
  | request
  | setup (message : String)

/-- The enhanced error thrown by `handleApiError`: a message plus the
raw upstream body (`null` when no response was attached). -/
structure NormalizedError where
  message : String
  data : Option Json

/-- Truthiness of the optional `data` slot of an enhanced error
(`data.error.data` in server.js, `null` being falsy). -/
def errDataTruthy : Option Json → Bool
  | some d => d.truthy
  | none => false

/-- proboClient.js lines 393-400: the ` - ...` detail appended after
`HTTP <status>`: the body's truthy `message` field, else the body itself
if it is a string, else its JSON serialization. -/
def responseDetail (data : Json) : String :=
  match data.getField "message" with
  | some m =>
    if m.truthy then " - " ++ m.jsDisplay
    else match data with
      | .str s => " - " ++ s
      | _ => " - " ++ data.stringify
  | none =>
    match data with
    | .str s => " - " ++ s
    | _ => " - " ++ data.stringify

/-- The `forEach` loop appending `\n- <err>` for each collected error
string (proboClient.js lines 407-409 and 415-417). -/
def appendDashLines (errs : List String) : String :=
  errs.foldl (fun m err => m ++ "\n- " ++ err) ""

/-- proboClient.js lines 402-423: the validation-errors block appended
for a 400 status whose body carries a truthy `errors` field. A
newline-delimited string is split and de-duplicated; a list is used
as-is (entries coerced by the template literal); at most the first 10
entries are listed, a remainder note follows when more exist. -/
def validationSuffix (status : Nat) (data : Json) : String :=
  match data.getField "errors" with
  | some errs =>
    if status == 400 && errs.truthy then
      "\nValidation errors:" ++
        (match errs with
         | .str s =>
           let uniqueErrors := dedupFirst (jsSplitNewline s)
           appendDashLines (uniqueErrors.take 10) ++
             (if uniqueErrors.length > 10 then
               "\n... and " ++ toString (uniqueErrors.length - 10) ++ " more errors"
             else "")
         | .arr l =>
           appendDashLines ((l.take 10).map Json.jsDisplay) ++
             (if l.length > 10 then
               "\n... and " ++ toString (l.length - 10) ++ " more errors"
             else "")
         | _ => "")
    else ""
  | none => ""

/-- The function `handleApiError(error, message)` builds the enhanced error the
source then throws. Total by construction (the source has no path that
fails). -/
def handleApiError (error : AxiosError) (message : String) : NormalizedError :=
  let baseMsg := if message == "" then "API request failed" else message
  match error with
  | .response status data =>
    let m := baseMsg ++ ": HTTP " ++ toString status
    let m := if data.truthy then m ++ responseDetail data ++ validationSuffix status data else m
    ⟨m, some data⟩
  | .request => ⟨baseMsg ++ ": No response received", none⟩
  | .setup msg => ⟨baseMsg ++ ": " ++ msg, none⟩

/-!
### configureProduct payload builder (proboClient.js lines 129-167)
-/

/-- A `{code, value}` product option. -/
structure ProductOption where
  code : String
  value : Json

/-- The synthesized default dimension options (lines 143 and 147). -/
def widthDefault : ProductOption := ⟨"width", Json.num 1000⟩

def heightDefault : ProductOption := ⟨"height", Json.num 1000⟩

/-- Predicate for an already-present width option (line 138). -/
def isWidthOpt (o : ProductOption) : Bool :=
  o.code == "width" || o.code == "width_mm"

/-- Predicate for an already-present height option (line 139). -/
def isHeightOpt (o : ProductOption) : Bool :=
  o.code == "height" || o.code == "height_mm"

/-- Lines 135-148: copy the caller's options and append the default
width/height entries when no option with the corresponding code (plain
or `_mm`) is present. Both presence flags are computed before either
push, as in the source. -/
def buildProductOptions (options : List ProductOption) : List ProductOption :=
  let productOptions := options
  let hasWidth := productOptions.any isWidthOpt
  let hasHeight := productOptions.any isHeightOpt
  let productOptions :=
    if hasWidth then productOptions else productOptions ++ [widthDefault]
  let productOptions :=
    if hasHeight then productOptions else productOptions ++ [heightDefault]
  productOptions

/-- One `{code, options}` entry of the configure payload. -/
structure ConfigProduct where
  code : String
  options : List ProductOption

/-- The body posted to `/products/configure` (lines 151-167). -/
structure ConfigurePayload where
  products : List ConfigProduct
  language : String
  deliveries : Option (List Json)

/-- Payload construction of `configureProduct`: a single product wrapping
the augmented option list, the language, and a `deliveries` entry only
when a truthy address was supplied. -/
def configureProductPayload (productCode : String) (options : List ProductOption)
    (address : Option Json) (language : String) : ConfigurePayload :=
  { products := [⟨productCode, buildProductOptions options⟩]
    language := language
    deliveries :=
      match address with
      | some a => if a.truthy then some [Json.obj [("address", a)]] else none
      | none => none }

/-!
### Reference-semantics model of the option-list copy (for the
frame/no-mutation claim about lines 135-148)

JS arrays are heap references; `[...options]` allocates a fresh array
and `push` mutates it in place. The store maps array references
(indices) to their contents.
-/

abbrev ArrStore := List (List ProductOption)

/-- Read the array behind a reference. -/
def getArr (s : ArrStore) (r : Nat) : List ProductOption :=
  s.getD r []

/-- JS `arr.push(o)` on the array behind reference `r`. -/
def pushArr (s : ArrStore) (r : Nat) (o : ProductOption) : ArrStore :=
  s.set r (getArr s r ++ [o])

/-- Lines 135-148 with explicit heap: spread-copy the caller's array
into a fresh reference, compute both presence flags, then push the
missing defaults onto the fresh array only. Returns the final store and
the reference holding `productOptions`. -/
def configureOptionsST (s : ArrStore) (optionsRef : Nat) : ArrStore × Nat :=
  let pRef := s.length
  let s1 := s ++ [getArr s optionsRef]
  let hasWidth := (getArr s1 pRef).any isWidthOpt
  let hasHeight := (getArr s1 pRef).any isHeightOpt
  let s2 := if hasWidth then s1 else pushArr s1 pRef widthDefault
  let s3 := if hasHeight then s2 else pushArr s2 pRef heightDefault
  (s3, pRef)

/-!
### placeOrder payload builder (proboClient.js lines 209-298)
-/

/-- The caller-facing address shape (`address_*` keys), every field
possibly absent as far as this layer is concerned (the tool schema
enforces presence of some of them earlier). -/
structure Address where
  address_company_name : Option String := none
  address_first_name : Option String := none
  address_last_name : Option String := none
  address_street : Option String := none
  address_house_number : Option String := none
  address_addition : Option String := none
  address_postal_code : Option String := none
  address_city : Option String := none
  address_country : Option String := none
  address_telephone_number : Option String := none
  address_email : Option String := none

/-- The upstream address shape (lines 213-225). Fields the source guards
with `|| ''` are plain strings; the rest are passed through as-is. -/
structure FormattedAddress where
  company_name : String
  first_name : Option String
  last_name : Option String
  street : Option String
  house_number : Option String
  addition : String
  postal_code : Option String
  city : Option String
  country : Option String
  phone : String
  email : String

def formatAddress (address : Address) : FormattedAddress :=
  { company_name := address.address_company_name.getD ""
    first_name := address.address_first_name
    last_name := address.address_last_name
    street := address.address_street
    house_number := address.address_house_number
    addition := address.address_addition.getD ""
    postal_code := address.address_postal_code
    city := address.address_city
    country := address.address_country
    phone := address.address_telephone_number.getD ""
    email := address.address_email.getD "" }

/-- A product line of the caller's configuration, as read by the
`formattedProducts` map (lines 228-264). -/
structure OrderProduct where
  code : Option String := none
  customer_code : Option String := none
  options : Option (List ProductOption) := none
  files : Option (List Json) := none
  uploader : Option Json := none
  uploaders : Option (List Json) := none

/-- A product entry of the order payload; `none` models an omitted key. -/
structure FormattedProduct where
  code : Option String
  options : Option (List ProductOption)
  files : Option (List Json)
  uploader : Option Json
  uploaders : Option (List Json)

/-- The placeholder file pushed when a product has neither files nor
options (lines 245-250). -/
def placeholderFile : Json :=
  Json.obj [("uri", Json.str "https://placekitten.com/800/600"), ("fill", Json.bool true)]

/-- One iteration of the `formattedProducts` map (lines 228-264). -/
def formatProduct (product : OrderProduct) : FormattedProduct :=
  let optionsNonEmpty :=
    match product.options with
    | some l => decide (l.length > 0)
    | none => false
  let filesNonEmpty :=
    match product.files with
    | some l => decide (l.length > 0)
    | none => false
  { code := strOrOpt product.code product.customer_code
    options := if optionsNonEmpty then product.options else none
    files :=
      if filesNonEmpty then product.files
      else if !optionsNonEmpty then some [placeholderFile]
      else none
    uploader :=
      match product.uploader with
      | some u => if u.truthy then some u else none
      | none => none
    uploaders :=
      match product.uploaders with
      | some l => if l.length > 0 then some l else none
      | none => none }

/-- Values for `callbackUrl` / `errorEmails`: the tool schema allows a bare
string or a list of strings. -/
inductive StrOrList where
  | str (s : String)
  | list (l : List String)

/-- JS truthiness of such a value (arrays are always truthy, a string is
truthy iff non-empty). -/
def StrOrList.truthy : StrOrList → Bool
  | .str s => s != ""
  | .list _ => true

/-- JS `Array.isArray(x) ? x : [x]` (lines 275-277 and 282-284). -/
def StrOrList.normalizeToList : StrOrList → List String
  | .str s => [s]
  | .list l => l

/-- The `additionalOptions` argument of `placeOrder`. -/
structure AdditionalOptions where
  orderId : Option String := none
  contactEmail : Option String := none
  callbackUrl : Option StrOrList := none
  errorEmails : Option StrOrList := none
  shippingMethodPreset : Option String := none
  deliveryDatePreset : Option String := none

/-- The `configuration` argument of `placeOrder`. -/
structure OrderConfiguration where
  products : Option (List OrderProduct) := none
  language : Option String := none

/-- One `deliveries` entry (lines 288-294). -/
structure Delivery where
  address : FormattedAddress
  shipping_method_preset : String
  delivery_date_preset : String

/-- The body posted to `/order` (lines 267-298). -/
structure OrderPayload where
  order_type : String
  reference : String
  id : String
  contact_email : String
  callback_url : Option (List String)
  error_email_addresses : Option (List String)
  deliveries : List Delivery
  products : List FormattedProduct

/-- Decimal rendering of a natural number, as a JS template literal
renders the integer `Date.now()`. -/
def jsNatToString (n : Nat) : String :=
  if n = 0 then "0"
  else (((Nat.digits 10 n).map Nat.digitChar).reverse).asString

/-- JS default-parameter resolution for `isTest` (line 209): an omitted
argument defaults to `PROBO_API_MODE === 'test'`. -/
def resolveIsTest (isTest : Option Bool) (mode : String) : Bool :=
  match isTest with
  | some b => b
  | none => mode == "test"

/-- Payload construction of `placeOrder`; `now` is the ambient
`Date.now()` reading observed by the call. -/
def placeOrderPayload (configuration : OrderConfiguration) (address : Address)
    (reference : String) (isTest : Bool) (additionalOptions : AdditionalOptions)
    (now : Nat) : OrderPayload :=
  { order_type := if isTest then "test" else "production"
    reference := reference
    id := strOrElse additionalOptions.orderId ("order-" ++ jsNatToString now)
    contact_email :=
      strOrElse address.address_email (strOrElse additionalOptions.contactEmail "")
    callback_url :=
      match additionalOptions.callbackUrl with
      | some x => if x.truthy then some x.normalizeToList else none
      | none => none
    error_email_addresses :=
      match additionalOptions.errorEmails with
      | some x => if x.truthy then some x.normalizeToList else none
      | none => none
    deliveries :=
      [⟨formatAddress address,
        strOrElse additionalOptions.shippingMethodPreset "cheapest",
        strOrElse additionalOptions.deliveryDatePreset "cheapest"⟩]
    products := (configuration.products.getD []).map formatProduct }

/-!
### Operation client (one function per endpoint)

The HTTP exchange itself is a collaborator; each operation is modelled
as a function of the transport outcome for its request. On failure every
operation routes through `handleApiError`, whose result the source
throws (modelled by `Except.error`).
-/

/-- getProducts lines 104-111: reshape the upstream body, renaming its
`data` field to `products` with falsy-fallbacks. -/
def transformProductsResponse (responseData : Json) : Json :=
  Json.obj
    [("products",
      match responseData.getField "data" with
      | some d => if d.truthy then d else Json.arr []
      | none => Json.arr []),
     ("meta",
      match responseData.getField "meta" with
      | some m => if m.truthy then m else Json.obj []
      | none => Json.obj [])]

def getProducts (upstream : Except AxiosError Json) : Except NormalizedError Json :=
  match upstream with
  | .ok responseData => .ok (transformProductsResponse responseData)
  | .error e => .error (handleApiError e "Failed to fetch products")

def configureProductOp (upstream : Except AxiosError Json) : Except NormalizedError Json :=
  match upstream with
  | .ok data => .ok data
  | .error e => .error (handleApiError e "Failed to configure product")

def placeOrderOp (upstream : Except AxiosError Json) : Except NormalizedError Json :=
  match upstream with
  | .ok data => .ok data
  | .error e => .error (handleApiError e "Failed to place order")

def getOrderStatusOp (upstream : Except AxiosError Json) : Except NormalizedError Json :=
  match upstream with
  | .ok data => .ok data
  | .error e => .error (handleApiError e "Failed to get order status")

def getAllOrdersOp (upstream : Except AxiosError Json) : Except NormalizedError Json :=
  match upstream with
  | .ok data => .ok data
  | .error e => .error (handleApiError e "Failed to get orders")

def cancelOrderOp (upstream : Except AxiosError Json) : Except NormalizedError Json :=
  match upstream with
  | .ok data => .ok data
  | .error e => .error (handleApiError e "Failed to cancel order")

/-!
### Tool registry / adapter (server.js)
-/

/-- The `data` argument of `formatResult`: either a plain JSON value, or
the `{ error }` wrapper the placeOrder handler passes, whose `error`
slot is an `Error` instance (satisfying `instanceof Error`). -/
inductive ResultData where
  | json (j : Json)
  | errorWrapper (e : NormalizedError)

/-- The uniform envelope returned to the protocol. The source's
`content` array holds `message` and the serialized `data`; they are
kept structured here. -/
structure UniformResult where
  message : String
  data : ResultData
  isError : Bool

/-- server.js lines 51-75: on an error result whose `data.error` is an
`Error` instance carrying truthy `data`, rebuild the payload as
`{error: <message>, details: <data>}`; otherwise pass `data` through. -/
def formatResult (message : String) (data : ResultData) (isError : Bool) : UniformResult :=
  let formattedData :=
    match data with
    | .errorWrapper e =>
      if isError && errDataTruthy e.data then
        ResultData.json (Json.obj [("error", Json.str e.message), ("details", e.data.getD Json.null)])
      else data
    | .json _ => data
  ⟨message, formattedData, isError⟩

/-- The searchProducts tool handler (server.js lines 83-113). -/
def searchProductsTool (upstream : Except AxiosError Json) : UniformResult :=
  match getProducts upstream with
  | .ok result =>
    formatResult
      ("Found " ++ toString (jsLengthOrZero (result.getField "products")) ++ " products")
      (.json result) false
  | .error e =>
    formatResult ("Error: " ++ e.message) (.json (Json.obj [("error", Json.str e.message)])) true

/-- The configureProduct tool handler (server.js lines 119-143). -/
def configureProductTool (upstream : Except AxiosError Json) (productCode : String) : UniformResult :=
  match configureProductOp upstream with
  | .ok result =>
    formatResult ("Product " ++ productCode ++ " configured successfully") (.json result) false
  | .error e =>
    formatResult ("Error: " ++ e.message) (.json (Json.obj [("error", Json.str e.message)])) true

/-- The placeOrder tool handler (server.js lines 149-184): unlike the
other five, its catch passes the raw `Error` instance as `{ error }`. -/
def placeOrderTool (upstream : Except AxiosError Json) : UniformResult :=
  match placeOrderOp upstream with
  | .ok result =>
    formatResult
      ("Order placed successfully: " ++
        jsOrDisplay ((result.getField "order").bind (fun o => o.getField "id")) "ID not available")
      (.json result) false
  | .error e =>
    formatResult ("Error: " ++ e.message) (.errorWrapper e) true

/-- The getOrderStatus tool handler (server.js lines 190-211). -/
def getOrderStatusTool (upstream : Except AxiosError Json) : UniformResult :=
  match getOrderStatusOp upstream with
  | .ok result =>
    formatResult
      ("Retrieved status for " ++ toString (jsLengthOrZero (result.getField "orders")) ++ " orders")
      (.json result) false
  | .error e =>
    formatResult ("Error: " ++ e.message) (.json (Json.obj [("error", Json.str e.message)])) true

/-- The getAllOrders tool handler (server.js lines 217-245). -/
def getAllOrdersTool (upstream : Except AxiosError Json) : UniformResult :=
  match getAllOrdersOp upstream with
  | .ok result =>
    formatResult
      ("Retrieved " ++ toString (jsLengthOrZero (result.getField "orders")) ++ " orders")
      (.json result) false
  | .error e =>
    formatResult ("Error: " ++ e.message) (.json (Json.obj [("error", Json.str e.message)])) true

/-- The cancelOrder tool handler (server.js lines 251-272). -/
def cancelOrderTool (upstream : Except AxiosError Json) (orderId : String) : UniformResult :=
  match cancelOrderOp upstream with
  | .ok result =>
    formatResult
      ("Order " ++ orderId ++ " cancellation result: " ++ jsTemplate (result.getField "status"))
      (.json result) false
  | .error e =>
    formatResult ("Error: " ++ e.message) (.json (Json.obj [("error", Json.str e.message)])) true

/-!
### Spec-side definitions

These follow the wording of the specification (not the code) and are
used only on the right-hand side of refinement statements.
-/

/-- Spec wording for the collected error strings of a 400 body: a
newline-delimited string is split and de-duplicated, a list is used
as-is. -/
def collectedErrorStrings : Json → List String
  | .str s => dedupFirst (jsSplitNewline s)
  | .arr l => l.map Json.jsDisplay
  | _ => []

/-- Spec wording for the enumerated block: the first (at most) 10
entries as `\n- <e>` lines, then a remainder note when more exist. -/
def specEnumeratedBlock (errs : List String) : String :=
  String.join ((errs.take 10).map (fun e => "\n- " ++ e)) ++
    (if errs.length > 10 then
      "\n... and " ++ toString (errs.length - 10) ++ " more errors"
    else "")

/-- Field access on the `data` slot of a `UniformResult` (the wrapper
case has no JSON fields). -/
def resultDataField (d : ResultData) (k : String) : Option Json :=
  match d with
  | .json j => j.getField k
  | .errorWrapper _ => none

/-- The raw upstream body attached to a transport failure (`null` when
no response arrived). -/
def axiosResponseBody : AxiosError → Option Json
  | .response _ d => some d
  | .request => none
  | .setup _ => none

end Probo

/-! ## Theorems -/

namespace Probo

/-- C7: the built payload's `order_type` is `"test"` iff `isTest` is
true; an omitted `isTest` defaults to whether the configured mode flag
equals `"test"`. -/
theorem placeOrder_order_type_iff_isTest (configuration : OrderConfiguration)
    (address : Address) (reference : String) (isTest : Bool)
    (additionalOptions : AdditionalOptions) (now : Nat) (mode : String) :
    ((placeOrderPayload configuration address reference isTest additionalOptions
        now).order_type = "test" ↔ isTest = true)
    ∧ resolveIsTest (some isTest) mode = isTest
    ∧ resolveIsTest none mode = (mode == "test")
    ∧ ((placeOrderPayload configuration address reference (resolveIsTest none mode)
        additionalOptions now).order_type = "test" ↔ (mode == "test") = true) := by
  refine ⟨?_, rfl, rfl, ?_⟩
  · cases isTest <;> simp [placeOrderPayload]
  · cases h : (mode == "test") <;> simp [placeOrderPayload, resolveIsTest, h]

/-- C6 (amended): a truthy bare-string `callbackUrl`/`errorEmails` is
normalized to a single-element list, a list is passed through
unchanged, and an absent — or empty-string, which JS treats as falsy —
value leaves the field omitted. -/
theorem placeOrder_callback_email_normalization (configuration : OrderConfiguration)
    (address : Address) (reference : String) (isTest : Bool)
    (additionalOptions : AdditionalOptions) (now : Nat) :
    (∀ s, s ≠ "" → additionalOptions.callbackUrl = some (.str s) →
      (placeOrderPayload configuration address reference isTest additionalOptions
        now).callback_url = some [s])
    ∧ (∀ l, additionalOptions.callbackUrl = some (.list l) →
      (placeOrderPayload configuration address reference isTest additionalOptions
        now).callback_url = some l)
    ∧ (additionalOptions.callbackUrl = none →
      (placeOrderPayload configuration address reference isTest additionalOptions
        now).callback_url = none)
    ∧ (additionalOptions.callbackUrl = some (.str "") →
      (placeOrderPayload configuration address reference isTest additionalOptions
        now).callback_url = none)
    ∧ (∀ s, s ≠ "" → additionalOptions.errorEmails = some (.str s) →
      (placeOrderPayload configuration address reference isTest additionalOptions
        now).error_email_addresses = some [s])
    ∧ (∀ l, additionalOptions.errorEmails = some (.list l) →
      (placeOrderPayload configuration address reference isTest additionalOptions
        now).error_email_addresses = some l)
    ∧ (additionalOptions.errorEmails = none →
      (placeOrderPayload configuration address reference isTest additionalOptions
        now).error_email_addresses = none)
    ∧ (additionalOptions.errorEmails = some (.str "") →
      (placeOrderPayload configuration address reference isTest additionalOptions
        now).error_email_addresses = none) := by
  refine ⟨fun s hs h => ?_, fun l h => ?_, fun h => ?_, fun h => ?_,
    fun s hs h => ?_, fun l h => ?_, fun h => ?_, fun h => ?_⟩
  · simp [placeOrderPayload, h, StrOrList.truthy, StrOrList.normalizeToList, hs]
  · simp [placeOrderPayload, h, StrOrList.truthy, StrOrList.normalizeToList]
  · simp [placeOrderPayload, h]
  · simp [placeOrderPayload, h, StrOrList.truthy]
  · simp [placeOrderPayload, h, StrOrList.truthy, StrOrList.normalizeToList, hs]
  · simp [placeOrderPayload, h, StrOrList.truthy, StrOrList.normalizeToList]
  · simp [placeOrderPayload, h]
  · simp [placeOrderPayload, h, StrOrList.truthy]

/-- C6 counterexample: an empty-string `callbackUrl` is a bare string,
but the built payload omits `callback_url` instead of carrying
`[""]`. -/
theorem placeOrder_callback_empty_string_omitted :
    (placeOrderPayload {} {} "ref" true { callbackUrl := some (.str "") } 0).callback_url
        = none
    ∧ (placeOrderPayload {} {} "ref" true { callbackUrl := some (.str "") } 0).callback_url
        ≠ some [""] := by
  exact ⟨rfl, by decide⟩

/-- C6 witness. -/
theorem placeOrder_callback_email_normalization_witness :
    (placeOrderPayload {} {} "ref" true
      { callbackUrl := some (.str "https://a.example/cb"),
        errorEmails := some (.list ["x@example.com", "y@example.com"]) } 0).callback_url
      = some ["https://a.example/cb"]
    ∧ (placeOrderPayload {} {} "ref" true
      { callbackUrl := some (.str "https://a.example/cb"),
        errorEmails := some (.list ["x@example.com", "y@example.com"]) } 0).error_email_addresses
      = some ["x@example.com", "y@example.com"] := by
  refine ⟨?_, ?_⟩
  · exact (placeOrder_callback_email_normalization {} {} "ref" true
      { callbackUrl := some (.str "https://a.example/cb"),
        errorEmails := some (.list ["x@example.com", "y@example.com"]) } 0).1
      "https://a.example/cb" (by decide) rfl
  · exact (placeOrder_callback_email_normalization {} {} "ref" true
      { callbackUrl := some (.str "https://a.example/cb"),
        errorEmails := some (.list ["x@example.com", "y@example.com"]) } 0).2.2.2.2.2.1
      ["x@example.com", "y@example.com"] rfl

/-- C5: a product with neither options nor files gets exactly the one
synthesized placeholder file reference; a product with at least one
option and no files gets no file entry. The payload's product list is
the image of the caller's list under `formatProduct`. -/
theorem placeOrder_placeholder_file_synthesis (product : OrderProduct)
    (configuration : OrderConfiguration) (address : Address) (reference : String)
    (isTest : Bool) (additionalOptions : AdditionalOptions) (now : Nat) :
    ((product.options = none ∨ product.options = some []) →
      (product.files = none ∨ product.files = some []) →
      (formatProduct product).files = some [placeholderFile])
    ∧ (∀ opts, product.options = some opts → opts ≠ [] → product.files = none →
      (formatProduct product).files = none)
    ∧ (placeOrderPayload configuration address reference isTest additionalOptions
        now).products = (configuration.products.getD []).map formatProduct := by
  refine ⟨fun ho hf => ?_, fun opts ho hne hf => ?_, rfl⟩
  · rcases ho with ho | ho <;> rcases hf with hf | hf <;>
      simp [formatProduct, ho, hf]
  · have : opts.length > 0 := List.length_pos.mpr hne
    simp [formatProduct, ho, hf, this]

/-- C5 witness. -/
theorem placeOrder_placeholder_file_synthesis_witness :
    (formatProduct { code := some "blanket" }).files = some [placeholderFile]
    ∧ (formatProduct { code := some "blanket", options := some [⟨"width", Json.num 500⟩] }).files = none := by
  constructor
  · exact (placeOrder_placeholder_file_synthesis { code := some "blanket" }
      {} {} "r" true {} 0).1 (Or.inl rfl) (Or.inl rfl)
  · exact (placeOrder_placeholder_file_synthesis
      { code := some "blanket", options := some [⟨"width", Json.num 500⟩] }
      {} {} "r" true {} 0).2.1 [⟨"width", Json.num 500⟩] rfl (by simp) rfl

/-- C3: the error normalizer is total: every transport failure yields a
`NormalizedError` whose message extends the caller's prefix (or the
built-in default) and whose data is the upstream body exactly when a
response was attached; each operation raises exactly that value. -/
theorem handleApiError_never_throws (e : AxiosError) (message : String) :
    (handleApiError e message).data = axiosResponseBody e
    ∧ (∃ rest, (handleApiError e message).message =
        (if message == "" then "API request failed" else message) ++ rest)
    ∧ getProducts (.error e) = .error (handleApiError e "Failed to fetch products")
    ∧ configureProductOp (.error e) = .error (handleApiError e "Failed to configure product")
    ∧ placeOrderOp (.error e) = .error (handleApiError e "Failed to place order")
    ∧ getOrderStatusOp (.error e) = .error (handleApiError e "Failed to get order status")
    ∧ getAllOrdersOp (.error e) = .error (handleApiError e "Failed to get orders")
    ∧ cancelOrderOp (.error e) = .error (handleApiError e "Failed to cancel order") := by
  refine ⟨?_, ?_, rfl, rfl, rfl, rfl, rfl, rfl⟩
  · cases e <;> rfl
  · cases e with
    | response status data =>
      cases hx : data.truthy
      · exact ⟨": HTTP " ++ toString status,
          by simp [handleApiError, hx, String.append_assoc]⟩
      · exact ⟨": HTTP " ++ toString status ++ (responseDetail data ++ validationSuffix status data),
          by simp [handleApiError, hx, String.append_assoc]⟩
    | request => exact ⟨": No response received", rfl⟩
    | setup msg => exact ⟨": " ++ msg, by simp [handleApiError, String.append_assoc]⟩

/-- Normal form of the augmented option list: the original list with a
default width appended when no width-coded option exists, then a
default height likewise. -/
theorem buildProductOptions_eq (opts : List ProductOption) :
    buildProductOptions opts =
      (opts ++ if opts.any isWidthOpt then [] else [widthDefault]) ++
        (if opts.any isHeightOpt then [] else [heightDefault]) := by
  unfold buildProductOptions
  cases h1 : opts.any isWidthOpt <;> cases h2 : opts.any isHeightOpt <;>
    simp only [h1, h2] <;> simp

/-- C1: when the caller supplies no option coded `width`/`width_mm`, the
built payload's option list carries exactly one `width` option and its
value is 1000 (likewise for height); a `width_mm` (resp. `height_mm`)
option suppresses the synthesized `width` (resp. `height`). -/
theorem configure_dimension_defaults (productCode : String) (opts : List ProductOption)
    (address : Option Json) (language : String) :
    (configureProductPayload productCode opts address language).products
        = [⟨productCode, buildProductOptions opts⟩]
    ∧ ((∀ o ∈ opts, o.code ≠ "width" ∧ o.code ≠ "width_mm") →
        (buildProductOptions opts).countP (fun o => o.code == "width") = 1
        ∧ ∀ o ∈ buildProductOptions opts, o.code = "width" → o.value = Json.num 1000)
    ∧ ((∀ o ∈ opts, o.code ≠ "height" ∧ o.code ≠ "height_mm") →
        (buildProductOptions opts).countP (fun o => o.code == "height") = 1
        ∧ ∀ o ∈ buildProductOptions opts, o.code = "height" → o.value = Json.num 1000)
    ∧ ((∃ o ∈ opts, o.code = "width_mm") →
        (buildProductOptions opts).filter (fun o => o.code == "width")
          = opts.filter (fun o => o.code == "width"))
    ∧ ((∃ o ∈ opts, o.code = "height_mm") →
        (buildProductOptions opts).filter (fun o => o.code == "height")
          = opts.filter (fun o => o.code == "height")) := by
  refine ⟨rfl, fun hno => ?_, fun hno => ?_, fun hex => ?_, fun hex => ?_⟩
  · have hW : opts.any isWidthOpt = false := by
      rw [List.any_eq_false]
      intro o ho
      simp only [isWidthOpt, Bool.or_eq_true, beq_iff_eq]
      rintro (h | h)
      exacts [(hno o ho).1 h, (hno o ho).2 h]
    have h0 : opts.countP (fun o => o.code == "width") = 0 :=
      List.countP_eq_zero.mpr (fun o ho => by simp [beq_iff_eq]; exact (hno o ho).1)
    constructor
    · rw [buildProductOptions_eq]
      cases hh : opts.any isHeightOpt <;>
        simp [hW, hh, List.countP_append, h0, widthDefault, heightDefault]
    · intro o ho hcode
      rw [buildProductOptions_eq] at ho
      cases hh : opts.any isHeightOpt <;> simp [hW, hh] at ho
      · rcases ho with ho | ho | ho
        · exact absurd hcode (hno o ho).1
        · subst ho; rfl
        · subst ho; exact absurd hcode (by simp [heightDefault])
      · rcases ho with ho | ho
        · exact absurd hcode (hno o ho).1
        · subst ho; rfl
  · have hH : opts.any isHeightOpt = false := by
      rw [List.any_eq_false]
      intro o ho
      simp only [isHeightOpt, Bool.or_eq_true, beq_iff_eq]
      rintro (h | h)
      exacts [(hno o ho).1 h, (hno o ho).2 h]
    have h0 : opts.countP (fun o => o.code == "height") = 0 :=
      List.countP_eq_zero.mpr (fun o ho => by simp [beq_iff_eq]; exact (hno o ho).1)
    constructor
    · rw [buildProductOptions_eq]
      cases hw : opts.any isWidthOpt <;>
        simp [hH, hw, List.countP_append, h0, widthDefault, heightDefault]
    · intro o ho hcode
      rw [buildProductOptions_eq] at ho
      cases hw : opts.any isWidthOpt <;> simp [hH, hw] at ho
      · rcases ho with ho | ho | ho
        · exact absurd hcode (hno o ho).1
        · subst ho; exact absurd hcode (by simp [widthDefault])
        · subst ho; rfl
      · rcases ho with ho | ho
        · exact absurd hcode (hno o ho).1
        · subst ho; rfl
  · have hW : opts.any isWidthOpt = true := by
      rw [List.any_eq_true]
      obtain ⟨o, ho, hcode⟩ := hex
      exact ⟨o, ho, by simp [isWidthOpt, hcode]⟩
    rw [buildProductOptions_eq]
    cases hh : opts.any isHeightOpt <;>
      simp [hW, hh, List.filter_append, heightDefault]
  · have hH : opts.any isHeightOpt = true := by
      rw [List.any_eq_true]
      obtain ⟨o, ho, hcode⟩ := hex
      exact ⟨o, ho, by simp [isHeightOpt, hcode]⟩
    rw [buildProductOptions_eq]
    cases hw : opts.any isWidthOpt <;>
      simp [hH, hw, List.filter_append, widthDefault]

/-- C1 witness. -/
theorem configure_dimension_defaults_witness :
    (buildProductOptions [⟨"color", Json.str "red"⟩]).countP (fun o => o.code == "width") = 1
    ∧ (buildProductOptions [⟨"color", Json.str "red"⟩]).countP (fun o => o.code == "height") = 1
    ∧ (buildProductOptions [⟨"width_mm", Json.num 500⟩]).filter (fun o => o.code == "width")
        = [⟨"width_mm", Json.num 500⟩].filter (fun o => o.code == "width") := by
  refine ⟨?_, ?_, ?_⟩
  · exact ((configure_dimension_defaults "banner" [⟨"color", Json.str "red"⟩] none "en").2.1
      (by simp)).1
  · exact ((configure_dimension_defaults "banner" [⟨"color", Json.str "red"⟩] none "en").2.2.1
      (by simp)).1
  · exact (configure_dimension_defaults "banner" [⟨"width_mm", Json.num 500⟩] none "en").2.2.2.1
      ⟨⟨"width_mm", Json.num 500⟩, by simp, rfl⟩

/-- Folding string concatenation from a seed appends to it. -/
theorem foldl_append_from (l : List String) (a b : String) :
    l.foldl (· ++ ·) (a ++ b) = a ++ l.foldl (· ++ ·) b := by
  induction l generalizing b with
  | nil => rfl
  | cons x xs ih => simp only [List.foldl_cons, String.append_assoc, ih]

/-- The function `String.join` peels off its head summand. -/
theorem join_cons (s : String) (l : List String) :
    String.join (s :: l) = s ++ String.join l := by
  calc List.foldl (· ++ ·) "" (s :: l)
      = List.foldl (· ++ ·) (s ++ "") l := by
        rw [List.foldl_cons, String.empty_append, String.append_empty]
    _ = s ++ List.foldl (· ++ ·) "" l := foldl_append_from l s ""

theorem appendDashLines_from (errs : List String) (acc : String) :
    errs.foldl (fun m err => m ++ "\n- " ++ err) acc
      = acc ++ String.join (errs.map (fun e => "\n- " ++ e)) := by
  induction errs generalizing acc with
  | nil => simp [String.join]
  | cons x xs ih =>
    rw [List.foldl_cons, List.map_cons, join_cons, ih]
    simp [String.append_assoc]

/-- The `forEach` accumulation equals the joined dash lines. -/
theorem appendDashLines_eq (errs : List String) :
    appendDashLines errs = String.join (errs.map (fun e => "\n- " ++ e)) :=
  (appendDashLines_from errs "").trans (String.empty_append _)

/-- A value with a readable field is an object, hence truthy. -/
theorem truthy_of_getField_some {j : Json} {k : String} {v : Json}
    (h : j.getField k = some v) : j.truthy = true := by
  cases j <;> simp [Json.getField, Json.truthy] at h ⊢

/-- C2 (amended): for a 400 response whose body carries a truthy
`errors` field that is a string or a list, the normalized message is
the usual prefix and detail followed by the validation block that
enumerates the collected error strings — split-on-newline and
de-duplicated for a string, as-is for a list — keeping at most the
first 10 and noting the count of the remainder. -/
theorem handleApiError_validation_enumeration (p : String) (body errs : Json)
    (hget : body.getField "errors" = some errs)
    (htruthy : errs.truthy = true)
    (hshape : (∃ s, errs = Json.str s) ∨ (∃ l, errs = Json.arr l)) :
    (handleApiError (.response 400 body) p).message =
      (if p == "" then "API request failed" else p) ++ ": HTTP " ++ toString 400 ++
        (responseDetail body ++
          ("\nValidation errors:" ++ specEnumeratedBlock (collectedErrorStrings errs))) := by
  have hbody : body.truthy = true := truthy_of_getField_some hget
  have hsuffix : validationSuffix 400 body
      = "\nValidation errors:" ++ specEnumeratedBlock (collectedErrorStrings errs) := by
    rcases hshape with ⟨s, rfl⟩ | ⟨l, rfl⟩
    · simp only [validationSuffix, hget, htruthy, Bool.and_true, beq_self_eq_true, if_true]
      rw [appendDashLines_eq]
      simp [specEnumeratedBlock, collectedErrorStrings]
    · simp only [validationSuffix, hget, htruthy, Bool.and_true, beq_self_eq_true, if_true]
      rw [appendDashLines_eq]
      simp [specEnumeratedBlock, collectedErrorStrings, List.map_take, String.append_assoc]
  simp only [handleApiError, hbody, if_true, hsuffix]
  simp [String.append_assoc]

set_option maxRecDepth 4000 in
/-- C2 witness: the two concrete scenarios of the claim, checked through
the full normalizer: `"a\na\nb"` lists exactly the unique entries `a`
and `b`; twelve list entries list the first ten plus the remainder
note. -/
theorem handleApiError_validation_enumeration_witness :
    (handleApiError (.response 400 (Json.obj [("errors", Json.str "a\na\nb")]))
        "Failed to place order").message
      = "Failed to place order: HTTP 400 - \x7b\"errors\":\"a\\na\\nb\"\x7d\nValidation errors:\n- a\n- b"
    ∧ (handleApiError (.response 400 (Json.obj [("errors",
        Json.arr [Json.str "e1", Json.str "e2", Json.str "e3", Json.str "e4", Json.str "e5",
          Json.str "e6", Json.str "e7", Json.str "e8", Json.str "e9", Json.str "e10",
          Json.str "e11", Json.str "e12"])])) "Failed to place order").message
      = "Failed to place order: HTTP 400 - \x7b\"errors\":[\"e1\",\"e2\",\"e3\",\"e4\",\"e5\",\"e6\",\"e7\",\"e8\",\"e9\",\"e10\",\"e11\",\"e12\"]\x7d\nValidation errors:\n- e1\n- e2\n- e3\n- e4\n- e5\n- e6\n- e7\n- e8\n- e9\n- e10\n... and 2 more errors" := by
  constructor
  · have h := handleApiError_validation_enumeration "Failed to place order"
      (Json.obj [("errors", Json.str "a\na\nb")]) (Json.str "a\na\nb")
      rfl (by decide) (Or.inl ⟨_, rfl⟩)
    exact h.trans (by decide)
  · have h := handleApiError_validation_enumeration "Failed to place order"
      (Json.obj [("errors",
        Json.arr [Json.str "e1", Json.str "e2", Json.str "e3", Json.str "e4", Json.str "e5",
          Json.str "e6", Json.str "e7", Json.str "e8", Json.str "e9", Json.str "e10",
          Json.str "e11", Json.str "e12"])])
      (Json.arr [Json.str "e1", Json.str "e2", Json.str "e3", Json.str "e4", Json.str "e5",
        Json.str "e6", Json.str "e7", Json.str "e8", Json.str "e9", Json.str "e10",
        Json.str "e11", Json.str "e12"])
      rfl (by decide) (Or.inr ⟨_, rfl⟩)
    exact h.trans (by decide)

/-- C2 counterexample: a body whose `errors` field is the empty string
has an `errors` field, and the split-and-de-duplicated entry list is
`[""]`; yet the code's falsy-check skips the whole validation block, so
nothing is enumerated. -/
theorem handleApiError_empty_errors_not_enumerated :
    validationSuffix 400 (Json.obj [("errors", Json.str "")]) = ""
    ∧ validationSuffix 400 (Json.obj [("errors", Json.str "")])
        ≠ "\nValidation errors:" ++ specEnumeratedBlock (collectedErrorStrings (Json.str ""))
    ∧ (handleApiError (.response 400 (Json.obj [("errors", Json.str "")]))
        "Failed to place order").message
      = "Failed to place order: HTTP 400 - \x7b\"errors\":\"\"\x7d" := by
  refine ⟨by decide, by decide, by decide⟩

/-- C8: a successful searchProducts call reshapes the upstream body into
`{products, meta}`: the tool result is non-error and carries the
transformed body, whose `products` slot is the upstream `data` list
(empty when the field is missing), `meta` likewise defaulting to an
empty object. -/
theorem searchProducts_reshape (body : Json) :
    (searchProductsTool (.ok body)).isError = false
    ∧ (searchProductsTool (.ok body)).data = .json (transformProductsResponse body)
    ∧ (∀ l, body.getField "data" = some (Json.arr l) →
        (transformProductsResponse body).getField "products" = some (Json.arr l))
    ∧ (body.getField "data" = none →
        (transformProductsResponse body).getField "products" = some (Json.arr []))
    ∧ (body.getField "meta" = none →
        (transformProductsResponse body).getField "meta" = some (Json.obj [])) := by
  refine ⟨rfl, rfl, fun l hl => ?_, fun hd => ?_, fun hm => ?_⟩
  · simp only [transformProductsResponse, hl]
    simp [Json.getField, Json.getField.lookupField, Json.truthy]
  · simp only [transformProductsResponse, hd]
    simp [Json.getField, Json.getField.lookupField]
  · simp only [transformProductsResponse, hm]
    simp [Json.getField, Json.getField.lookupField]

/-- C8 witness. -/
theorem searchProducts_reshape_witness :
    (searchProductsTool (.ok (Json.obj
        [("data", Json.arr [Json.obj [("code", Json.str "x")]]),
         ("meta", Json.obj [("total", Json.num 1)])]))).isError = false
    ∧ (transformProductsResponse (Json.obj
        [("data", Json.arr [Json.obj [("code", Json.str "x")]]),
         ("meta", Json.obj [("total", Json.num 1)])])).getField "products"
      = some (Json.arr [Json.obj [("code", Json.str "x")]])
    ∧ (transformProductsResponse (Json.obj [])).getField "products" = some (Json.arr [])
    ∧ (transformProductsResponse (Json.obj [])).getField "meta" = some (Json.obj []) := by
  refine ⟨(searchProducts_reshape _).1, ?_, ?_, ?_⟩
  · exact (searchProducts_reshape (Json.obj
      [("data", Json.arr [Json.obj [("code", Json.str "x")]]),
       ("meta", Json.obj [("total", Json.num 1)])])).2.2.1
      [Json.obj [("code", Json.str "x")]] rfl
  · exact (searchProducts_reshape (Json.obj [])).2.2.2.1 rfl
  · exact (searchProducts_reshape (Json.obj [])).2.2.2.2 rfl

/-- C4 (amended): every failure raised by an operation is caught and
converted to a uniform result with `isError` true and message
`Error: <normalized message>`; no exception escapes. The five handlers
other than placeOrder pass only the message string, so their result
data is `{error: <message>}` with no structured details; the placeOrder
handler passes the raw error, so its result data carries
`{error, details}` exactly when the normalized error holds truthy
data. -/
theorem tool_error_wrapping (e : AxiosError) (productCode orderId : String) :
    ((searchProductsTool (.error e)).isError = true
      ∧ (searchProductsTool (.error e)).message
          = "Error: " ++ (handleApiError e "Failed to fetch products").message
      ∧ (searchProductsTool (.error e)).data
          = .json (Json.obj [("error", Json.str (handleApiError e "Failed to fetch products").message)]))
    ∧ ((configureProductTool (.error e) productCode).isError = true
      ∧ (configureProductTool (.error e) productCode).message
          = "Error: " ++ (handleApiError e "Failed to configure product").message
      ∧ (configureProductTool (.error e) productCode).data
          = .json (Json.obj [("error", Json.str (handleApiError e "Failed to configure product").message)]))
    ∧ ((getOrderStatusTool (.error e)).isError = true
      ∧ (getOrderStatusTool (.error e)).message
          = "Error: " ++ (handleApiError e "Failed to get order status").message
      ∧ (getOrderStatusTool (.error e)).data
          = .json (Json.obj [("error", Json.str (handleApiError e "Failed to get order status").message)]))
    ∧ ((getAllOrdersTool (.error e)).isError = true
      ∧ (getAllOrdersTool (.error e)).message
          = "Error: " ++ (handleApiError e "Failed to get orders").message
      ∧ (getAllOrdersTool (.error e)).data
          = .json (Json.obj [("error", Json.str (handleApiError e "Failed to get orders").message)]))
    ∧ ((cancelOrderTool (.error e) orderId).isError = true
      ∧ (cancelOrderTool (.error e) orderId).message
          = "Error: " ++ (handleApiError e "Failed to cancel order").message
      ∧ (cancelOrderTool (.error e) orderId).data
          = .json (Json.obj [("error", Json.str (handleApiError e "Failed to cancel order").message)]))
    ∧ ((placeOrderTool (.error e)).isError = true
      ∧ (placeOrderTool (.error e)).message
          = "Error: " ++ (handleApiError e "Failed to place order").message
      ∧ (∀ d, (handleApiError e "Failed to place order").data = some d → d.truthy = true →
          (placeOrderTool (.error e)).data
            = .json (Json.obj [("error", Json.str (handleApiError e "Failed to place order").message),
                ("details", d)]))
      ∧ ((handleApiError e "Failed to place order").data = none →
          (placeOrderTool (.error e)).data
            = .errorWrapper (handleApiError e "Failed to place order"))) := by
  refine ⟨⟨rfl, rfl, rfl⟩, ⟨rfl, rfl, rfl⟩, ⟨rfl, rfl, rfl⟩, ⟨rfl, rfl, rfl⟩, ⟨rfl, rfl, rfl⟩,
    rfl, rfl, fun d hd ht => ?_, fun hd => ?_⟩
  · simp [placeOrderTool, placeOrderOp, formatResult, errDataTruthy, hd, ht]
  · simp [placeOrderTool, placeOrderOp, formatResult, errDataTruthy, hd]

/-- C4 witness. -/
theorem tool_error_wrapping_witness :
    (placeOrderTool (.error (.response 500 (Json.obj [("message", Json.str "boom")])))).data
      = .json (Json.obj [("error", Json.str "Failed to place order: HTTP 500 - boom"),
          ("details", Json.obj [("message", Json.str "boom")])])
    ∧ (searchProductsTool (.error (.response 500 (Json.obj [("message", Json.str "boom")])))).message
      = "Error: Failed to fetch products: HTTP 500 - boom" := by
  have h := tool_error_wrapping (.response 500 (Json.obj [("message", Json.str "boom")])) "x" "y"
  constructor
  · have h3 := h.2.2.2.2.2.2.2.1 (Json.obj [("message", Json.str "boom")]) rfl rfl
    rw [show (handleApiError (.response 500 (Json.obj [("message", Json.str "boom")]))
        "Failed to place order").message = "Failed to place order: HTTP 500 - boom" from by decide] at h3
    exact h3
  · exact h.1.2.1.trans (by decide)

/-- C4 counterexample: for the five non-placeOrder handlers the
normalized error carries truthy structured data, yet the wrapped result
data has no `details` field. -/
theorem tool_error_details_dropped :
    resultDataField
        (searchProductsTool (.error (.response 500 (Json.obj [("message", Json.str "boom")])))).data
        "details" = none
    ∧ errDataTruthy (handleApiError (.response 500 (Json.obj [("message", Json.str "boom")]))
        "Failed to fetch products").data = true := by
  exact ⟨rfl, rfl⟩

/-- Decimal digit characters determine their digit. -/
theorem digitChar_inj_lt : ∀ d < 10, ∀ e < 10, Nat.digitChar d = Nat.digitChar e → d = e := by
  decide

/-- Mapping `digitChar` over digit lists below the base is injective. -/
theorem map_digitChar_inj (l1 : List Nat) : ∀ (l2 : List Nat),
    (∀ d ∈ l1, d < 10) → (∀ d ∈ l2, d < 10) →
    l1.map Nat.digitChar = l2.map Nat.digitChar → l1 = l2 := by
  induction l1 with
  | nil =>
    intro l2 _ _ h
    cases l2 with
    | nil => rfl
    | cons y ys => simp at h
  | cons x xs ih =>
    intro l2 h1 h2 h
    cases l2 with
    | nil => simp at h
    | cons y ys =>
      simp only [List.map_cons, List.cons.injEq] at h
      have hx : x = y := digitChar_inj_lt x (h1 x (by simp)) y (h2 y (by simp)) h.1
      rw [hx, ih ys (fun d hd => h1 d (List.mem_cons_of_mem _ hd))
        (fun d hd => h2 d (List.mem_cons_of_mem _ hd)) h.2]

/-- A nonzero number never renders as `"0"`. -/
theorem digitsString_ne_zero (n : Nat) (hn : n ≠ 0) :
    (((Nat.digits 10 n).map Nat.digitChar).reverse).asString ≠ "0" := by
  intro h
  have hdata : ((Nat.digits 10 n).map Nat.digitChar).reverse = ['0'] := congrArg String.data h
  have hrev : (Nat.digits 10 n).map Nat.digitChar = ['0'] := by
    have h2 := congrArg List.reverse hdata
    simpa using h2
  cases hd : Nat.digits 10 n with
  | nil => rw [hd] at hrev; simp at hrev
  | cons d rest =>
    cases rest with
    | nil =>
      rw [hd] at hrev
      simp only [List.map_cons, List.map_nil, List.cons.injEq, and_true] at hrev
      have hd10 : d < 10 := Nat.digits_lt_base (by norm_num) (by rw [hd]; simp)
      have hd0 : d = 0 := digitChar_inj_lt d hd10 0 (by norm_num) hrev
      have hzero : n = 0 := by
        have := Nat.ofDigits_digits 10 n
        rw [hd, hd0] at this
        simpa [Nat.ofDigits] using this.symm
      exact hn hzero
    | cons d2 rest2 => rw [hd] at hrev; simp at hrev

/-- The JS decimal rendering of a natural number is injective. -/
theorem jsNatToString_inj (m n : Nat) (h : jsNatToString m = jsNatToString n) : m = n := by
  unfold jsNatToString at h
  by_cases hm : m = 0 <;> by_cases hn : n = 0
  · exact hm.trans hn.symm
  · rw [if_pos hm, if_neg hn] at h
    exact absurd h.symm (digitsString_ne_zero n hn)
  · rw [if_neg hm, if_pos hn] at h
    exact absurd h (digitsString_ne_zero m hm)
  · rw [if_neg hm, if_neg hn] at h
    have hdata : ((Nat.digits 10 m).map Nat.digitChar).reverse
        = ((Nat.digits 10 n).map Nat.digitChar).reverse := congrArg String.data h
    have hmap := List.reverse_injective hdata
    have hdig := map_digitChar_inj (Nat.digits 10 m) (Nat.digits 10 n)
      (fun d hd => Nat.digits_lt_base (by norm_num) hd)
      (fun d hd => Nat.digits_lt_base (by norm_num) hd) hmap
    calc m = Nat.ofDigits 10 (Nat.digits 10 m) := (Nat.ofDigits_digits 10 m).symm
      _ = Nat.ofDigits 10 (Nat.digits 10 n) := by rw [hdig]
      _ = n := Nat.ofDigits_digits 10 n

/-- C9 (amended): with no `orderId` supplied the payload id is the
generated string `order-<timestamp>`; it is non-empty, and two calls
produce different ids whenever their clock readings differ. -/
theorem placeOrder_generated_id (configuration : OrderConfiguration) (address : Address)
    (reference : String) (isTest : Bool) (additionalOptions : AdditionalOptions)
    (now now1 now2 : Nat) (hid : additionalOptions.orderId = none) :
    (placeOrderPayload configuration address reference isTest additionalOptions now).id
        = "order-" ++ jsNatToString now
    ∧ (placeOrderPayload configuration address reference isTest additionalOptions now).id ≠ ""
    ∧ (now1 ≠ now2 →
        (placeOrderPayload configuration address reference isTest additionalOptions now1).id
          ≠ (placeOrderPayload configuration address reference isTest additionalOptions now2).id) := by
  have hgen : ∀ t : Nat,
      (placeOrderPayload configuration address reference isTest additionalOptions t).id
        = "order-" ++ jsNatToString t := by
    intro t
    simp [placeOrderPayload, strOrElse, hid]
  refine ⟨hgen now, ?_, fun hne h => ?_⟩
  · rw [hgen now]
    intro h
    have hlen : ("order-" ++ jsNatToString now).length = 0 := by rw [h]; rfl
    rw [String.length_append] at hlen
    have h6 : "order-".length = 6 := rfl
    rw [h6] at hlen
    omega
  · rw [hgen now1, hgen now2] at h
    have hdata := congrArg String.data h
    rw [String.data_append, String.data_append] at hdata
    have hs : (jsNatToString now1).data = (jsNatToString now2).data :=
      List.append_cancel_left hdata
    exact hne (jsNatToString_inj now1 now2 (String.ext hs))

/-- C9 witness. -/
theorem placeOrder_generated_id_witness :
    (placeOrderPayload {} {} "ref" true {} 0).id
      ≠ (placeOrderPayload {} {} "ref" true {} 1).id := by
  exact (placeOrder_generated_id {} {} "ref" true {} 0 0 1 rfl).2.2 (by decide)

/-- C9 counterexample: two successive calls that observe the same
millisecond clock reading generate the same id even though everything
else about the orders differs. -/
theorem placeOrder_generated_id_collision :
    (placeOrderPayload {} {} "first order" true {} 1700000000000).id
      = (placeOrderPayload {} {} "second order" true {} 1700000000000).id := rfl

/-- Reading below the old length ignores a freshly appended array. -/
theorem getArr_append_lt (s : ArrStore) (x : List ProductOption) (r : Nat)
    (h : r < s.length) : getArr (s ++ [x]) r = getArr s r :=
  List.getD_append s [x] [] r h

/-- Reading the fresh reference returns the appended array. -/
theorem getArr_append_self (s : ArrStore) (x : List ProductOption) :
    getArr (s ++ [x]) s.length = x := by
  unfold getArr
  rw [List.getD_eq_getD_get?, List.get?_concat_length]
  rfl

/-- Pushing onto one reference leaves every other reference unchanged. -/
theorem getArr_push_ne (t : ArrStore) (i j : Nat) (o : ProductOption) (hij : j ≠ i) :
    getArr (pushArr t i o) j = getArr t j := by
  unfold getArr pushArr
  rw [List.getD_eq_getD_get?, List.getD_eq_getD_get?,
    List.get?_set_ne _ _ (fun hh => hij hh.symm)]

/-- Pushing appends to the array behind the reference. -/
theorem getArr_push_self (t : ArrStore) (i : Nat) (o : ProductOption) (h : i < t.length) :
    getArr (pushArr t i o) i = getArr t i ++ [o] := by
  unfold getArr pushArr
  rw [List.getD_eq_getD_get?, List.get?_set_eq_of_lt _ h]
  rfl

theorem length_pushArr (t : ArrStore) (i : Nat) (o : ProductOption) :
    (pushArr t i o).length = t.length :=
  List.length_set ..

/-- C10: the option-augmentation block never mutates the caller's
array: after running it the caller's reference holds exactly the list
it held before, while the fresh reference holds the augmented copy
(i.e. the pure `buildProductOptions` of the original). -/
theorem configure_options_no_mutation (s : ArrStore) (r : Nat) (h : r < s.length) :
    getArr (configureOptionsST s r).1 r = getArr s r
    ∧ getArr (configureOptionsST s r).1 (configureOptionsST s r).2
        = buildProductOptions (getArr s r) := by
  have hne : r ≠ s.length := Nat.ne_of_lt h
  have hcopy : getArr (s ++ [getArr s r]) s.length = getArr s r := getArr_append_self s _
  have hlt1 : s.length < (s ++ [getArr s r]).length := by simp
  constructor
  · simp only [configureOptionsST, hcopy]
    cases hW : (getArr s r).any isWidthOpt <;>
      cases hH : (getArr s r).any isHeightOpt <;>
      simp [getArr_push_ne _ _ _ _ hne, getArr_append_lt s _ r h]
  · simp only [configureOptionsST, hcopy]
    rw [buildProductOptions_eq]
    have hl2 : List.length s
        < (pushArr (s ++ [getArr s r]) (List.length s) widthDefault).length := by
      rw [length_pushArr]; exact hlt1
    cases hW : (getArr s r).any isWidthOpt <;>
      cases hH : (getArr s r).any isHeightOpt <;>
      simp [hW, hH, getArr_push_self _ _ _ hlt1, getArr_push_self _ _ _ hl2, hcopy]

/-- C10 witness. -/
theorem configure_options_no_mutation_witness :
    getArr (configureOptionsST [[⟨"color", Json.str "red"⟩]] 0).1 0
      = [⟨"color", Json.str "red"⟩] := by
  exact (configure_options_no_mutation [[⟨"color", Json.str "red"⟩]] 0 (by decide)).1

end Probo
